import Mathlib

/-!
Verification of the boolean-circuit catamorphism library (`main.py`).

The embedding mirrors the source:
* `Gates A` is the one-level view (the Python classes `Input`, `NOT`, `AND`,
  `OR` with slots of type `A`); `Gates.fmap` is the per-class `fmap` method.
* `RecGates A` is the recursive-tree view (the Python type alias `RecGates`,
  where the very same classes hold subtrees in their slots).
* `fold`, `map_inputs`, `XOR`, `EQ`, the reference algebras, `Uniq`,
  `from_uuids` and `uniquify_algebra` are translated function by function.

Python floats are modelled as rationals `ℚ`: every claim under study only
evaluates the algebras on values where IEEE arithmetic is exact ({0,1}
arithmetic, or pure value shuffling in `derivative_algebra`), so the
rational model agrees with the float code on those inputs.

UUIDs are modelled as a free term algebra: `UUID.uuid4 n` stands for the
n-th freshly generated random uuid (Python `uuid4()`), and `UUID.uuid5 l`
stands for `uuid5(NAMESPACE_X500, "".join(map(str, l)))`, idealised as an
injective, collision-free hash of the ordered list of uuids, which is the
standard idealisation of a cryptographic hash.
-/

namespace BitAcc

/-- The four node kinds with slots of type `A` (the Python dataclasses
`Input`, `NOT`, `AND`, `OR`; one-level view `Gates[A]`). -/
inductive Gates (A : Type) where
  | Input : A → Gates A
  | NOT : A → Gates A
  | AND : A → A → Gates A
  | OR : A → A → Gates A
deriving DecidableEq, Repr

/-- The per-class `fmap` methods: apply `f` to each slot, preserving the
node kind and slot order (left slot first). -/
def Gates.fmap {A B : Type} (f : A → B) : Gates A → Gates B
  | .Input x => .Input (f x)
  | .NOT x => .NOT (f x)
  | .AND x y => .AND (f x) (f y)
  | .OR x y => .OR (f x) (f y)

/-- The recursive-tree view `RecGates[A]`: the same four classes, with
subtrees in the slots of `NOT`/`AND`/`OR` and a payload in `Input`. -/
inductive RecGates (A : Type) where
  | Input : A → RecGates A
  | NOT : RecGates A → RecGates A
  | AND : RecGates A → RecGates A → RecGates A
  | OR : RecGates A → RecGates A → RecGates A
deriving DecidableEq, Repr

/-- Python `XOR(x, y) = OR(AND(x, NOT(y)), AND(NOT(x), y))`. -/
def XOR {A : Type} (x y : RecGates A) : RecGates A :=
  .OR (.AND x (.NOT y)) (.AND (.NOT x) y)

/-- Python `EQ(x, y) = AND(OR(x, NOT(y)), OR(NOT(x), y))`. -/
def EQ {A : Type} (x y : RecGates A) : RecGates A :=
  .AND (.OR x (.NOT y)) (.OR (.NOT x) y)

/-- Python `fold(f_algebra, g)`: if `g` is an `Input`, apply the algebra directly;
otherwise apply the algebra to `g.fmap(partial(fold, f_algebra))`, i.e. to
the gate whose slots hold the folds of the subtrees (the `fmap` of each
class is unfolded per constructor, left slot before right slot). -/
def fold {A : Type} (f_algebra : Gates A → A) : RecGates A → A
  | .Input x => f_algebra (.Input x)
  | .NOT t => f_algebra (.NOT (fold f_algebra t))
  | .AND l r => f_algebra (.AND (fold f_algebra l) (fold f_algebra r))
  | .OR l r => f_algebra (.OR (fold f_algebra l) (fold f_algebra r))

/-- Python `map_inputs(f, g)`: on an `Input`, `g.fmap(f)`; otherwise
`g.fmap(partial(map_inputs, f))` (again the per-class `fmap` is unfolded
per constructor). -/
def map_inputs {A B : Type} (f : A → B) : RecGates A → RecGates B
  | .Input x => .Input (f x)
  | .NOT t => .NOT (map_inputs f t)
  | .AND l r => .AND (map_inputs f l) (map_inputs f r)
  | .OR l r => .OR (map_inputs f l) (map_inputs f r)

/-- Python `boolean_algebra`: identity on leaves, `not`, `and`, `or`. -/
def boolean_algebra : Gates Bool → Bool
  | .Input x => x
  | .NOT x => !x
  | .AND x y => x && y
  | .OR x y => x || y

/-- Python `float_algebra`: identity on leaves, `1 - x`, `x * y`,
`1 - (1 - x) * (1 - y)` (floats modelled as rationals). -/
def float_algebra : Gates ℚ → ℚ
  | .Input x => x
  | .NOT x => 1 - x
  | .AND x y => x * y
  | .OR x y => 1 - (1 - x) * (1 - y)

/-- The heterogeneous return type of `derivative_algebra` (Python `Any`):
a scalar for `Input`/`NOT`, a pair for `AND`/`OR`. -/
inductive DerivOut where
  | scalar : ℚ → DerivOut
  | pair : ℚ → ℚ → DerivOut
deriving DecidableEq, Repr

/-- Python `derivative_algebra`: `1` on leaves, `-1` for `NOT`, `(y, x)` for
`AND(x, y)`, `(1-y, 1-x)` for `OR(x, y)`. -/
def derivative_algebra : Gates ℚ → DerivOut
  | .Input _ => .scalar 1
  | .NOT _ => .scalar (-1)
  | .AND x y => .pair y x
  | .OR x y => .pair (1 - y) (1 - x)

/-- The model of uuids: `uuid4 n` is a freshly generated random uuid
(indexed by its generation seed), `uuid5 l` is the uuid-5 hash of the
concatenated string forms of the uuids in `l`, idealised as a free
constructor (injective, collision-free). -/
inductive UUID where
  | uuid4 : Nat → UUID
  | uuid5 : List UUID → UUID

/-- Python `from_uuids(*uuid) = uuid5(NAMESPACE_X500, "".join(map(str, uuid)))`. -/
def from_uuids (l : List UUID) : UUID := .uuid5 l

/-- The dataclass `Uniq[A]`: a payload `unwrapped` together with a `uuid`. -/
structure Uniq (A : Type) where
  unwrapped : A
  uuid : UUID

/-- Python `Uniq.fmap(f) = Uniq(f(self.unwrapped), from_uuids(self.uuid))`. -/
def Uniq.fmap {A B : Type} (u : Uniq A) (f : A → B) : Uniq B :=
  ⟨f u.unwrapped, from_uuids [u.uuid]⟩

/-- The ordered list of the `uuid` attributes of a gate's dataclass fields,
as traversed by `uniquify_algebra`'s generator
`(g.__getattribute__(field).uuid for field in g.__dataclass_fields__)`:
dataclass fields are listed in declaration order (`x` alone for `Input` and
`NOT`; `x` then `y` for `AND` and `OR`). -/
def slotUuids {A : Type} : Gates (Uniq A) → List UUID
  | .Input x => [x.uuid]
  | .NOT x => [x.uuid]
  | .AND x y => [x.uuid, y.uuid]
  | .OR x y => [x.uuid, y.uuid]

/-- Python `uniquify_algebra(algebra)` returns the function
`f(g) = Uniq(algebra(g.fmap(lambda x: x.unwrapped)), from_uuids(*uuids))`
where `uuids` is the ordered list of the slots' uuid attributes. -/
def uniquify_algebra {A : Type} (algebra : Gates A → A)
    (g : Gates (Uniq A)) : Uniq A :=
  ⟨algebra (g.fmap Uniq.unwrapped), from_uuids (slotUuids g)⟩

/-- Python `example(x, y, z) = EQ(AND(x_input, OR(AND(x_input, y_input), z_input)),
NOT(z_input))` where `*_input = Input(*)` (the Python function is named
`example`, a reserved word in Lean, hence the suffix). -/
def example_gates {A : Type} (x y z : A) : RecGates A :=
  EQ (.AND (.Input x) (.OR (.AND (.Input x) (.Input y)) (.Input z)))
    (.NOT (.Input z))

/-- Python `bool_to_float(b) = 1.0 if b else 0.0`. -/
def bool_to_float (b : Bool) : ℚ := if b then 1 else 0

/-- A numeric tag for the node kind of a one-level gate, used to state
"two gates of the same node kind". -/
def kindTag {A : Type} : Gates A → Nat
  | .Input _ => 0
  | .NOT _ => 1
  | .AND _ _ => 2
  | .OR _ _ => 3

/-- Spec-side definition for the substitution property: "the tree obtained
by replacing each leaf payload `v` with `f(v)` pointwise", written as
direct structural recursion that rewrites only `Input` payloads and keeps
every `NOT`/`AND`/`OR` node's kind and slot order. -/
def substitute_leaves {A B : Type} (f : A → B) : RecGates A → RecGates B
  | .Input v => .Input (f v)
  | .NOT t => .NOT (substitute_leaves f t)
  | .AND l r => .AND (substitute_leaves f l) (substitute_leaves f r)
  | .OR l r => .OR (substitute_leaves f l) (substitute_leaves f r)

/-- Every leaf payload of the tree lies in {0, 1}. -/
def leavesIn01 : RecGates ℚ → Prop
  | .Input x => x = 0 ∨ x = 1
  | .NOT t => leavesIn01 t
  | .AND l r => leavesIn01 l ∧ leavesIn01 r
  | .OR l r => leavesIn01 l ∧ leavesIn01 r

/-- The corresponding boolean tree: the same tree with leaf `1.0` read as
`True` and any other payload (in particular `0.0`) as `False`. -/
def toBoolTree : RecGates ℚ → RecGates Bool :=
  map_inputs (fun v => decide (v = 1))

/-- Helper: in the free uuid model, hashing a single uuid never returns
that uuid itself (the term `uuid5 [i]` is strictly larger than `i`). -/
theorem uuid5_single_ne (i : UUID) : UUID.uuid5 [i] ≠ i := by
  intro h
  have h2 := congrArg sizeOf h
  simp only [UUID.uuid5.sizeOf_spec, List.cons.sizeOf_spec, List.nil.sizeOf_spec] at h2
  omega

/-- C1: the claim says the lifted algebra leaves an `Input` leaf's identity
unchanged; on the code the derived identity is `from_uuids(i)`, the hash of
the carried identity, which differs from the carried identity itself: here
a concrete leaf `Uniq(True, uuid4 0)` whose output identity is not
`uuid4 0`. -/
theorem C1_counterexample :
    (uniquify_algebra boolean_algebra (.Input ⟨true, .uuid4 0⟩)).uuid ≠
      UUID.uuid4 0 :=
  fun h => UUID.noConfusion h

/-- C1 (amended): applying the lifted algebra `uniquify_algebra(alg)` to an
`Input` leaf carrying `Uniq(p, i)` yields an output whose identity is
`from_uuids(i)` — the deterministic hash re-derivation of the carried
identity `i` — and not `i` itself. -/
theorem C1_leaf_identity_rederived {A : Type} (alg : Gates A → A)
    (p : A) (i : UUID) :
    (uniquify_algebra alg (.Input ⟨p, i⟩)).uuid = from_uuids [i] ∧
    (uniquify_algebra alg (.Input ⟨p, i⟩)).uuid ≠ i :=
  ⟨rfl, uuid5_single_ne i⟩

/-- C2: the claim says folding the boolean algebra over
`EQ(AND(x, OR(AND(x,y), z)), NOT(z))` with `x=False, y=True, z=False`
returns `True`; on the code it returns `False`. -/
theorem C2_counterexample :
    ¬ (fold boolean_algebra (example_gates false true false) = true) := by
  decide

/-- C2 (amended): folding the boolean algebra over the tree
`EQ(AND(x, OR(AND(x,y), z)), NOT(z))` built with leaf values
`x=False, y=True, z=False` returns `False`. -/
theorem C2_boolean_example :
    fold boolean_algebra (example_gates false true false) = false := by
  decide

/-- C3: for every finite tree whose leaf payloads all lie in {0.0, 1.0},
folding the continuous-relaxation algebra equals `bool_to_float` of the
boolean algebra's fold over the corresponding boolean tree (leaf `1.0`
read as `True`, `0.0` as `False`). -/
theorem C3_relaxation_boolean (t : RecGates ℚ) (h : leavesIn01 t) :
    fold float_algebra t =
      bool_to_float (fold boolean_algebra (toBoolTree t)) := by
  induction t with
  | Input x =>
    rcases h with h | h <;> subst h <;>
      simp [fold, toBoolTree, map_inputs, float_algebra, boolean_algebra,
        bool_to_float]
  | NOT t ih =>
    have ht := ih h
    simp only [fold, toBoolTree, map_inputs, float_algebra,
      boolean_algebra] at ht ⊢
    rw [ht]
    cases fold boolean_algebra (map_inputs (fun v => decide (v = 1)) t) <;>
      simp [bool_to_float]
  | AND l r ihl ihr =>
    obtain ⟨hl, hr⟩ := h
    have htl := ihl hl
    have htr := ihr hr
    simp only [fold, toBoolTree, map_inputs, float_algebra,
      boolean_algebra] at htl htr ⊢
    rw [htl, htr]
    cases fold boolean_algebra (map_inputs (fun v => decide (v = 1)) l) <;>
      cases fold boolean_algebra (map_inputs (fun v => decide (v = 1)) r) <;>
        simp [bool_to_float]
  | OR l r ihl ihr =>
    obtain ⟨hl, hr⟩ := h
    have htl := ihl hl
    have htr := ihr hr
    simp only [fold, toBoolTree, map_inputs, float_algebra,
      boolean_algebra] at htl htr ⊢
    rw [htl, htr]
    cases fold boolean_algebra (map_inputs (fun v => decide (v = 1)) l) <;>
      cases fold boolean_algebra (map_inputs (fun v => decide (v = 1)) r) <;>
        simp [bool_to_float]

/-- Witness for C3 at the concrete tree `OR(Input 0, NOT(Input 0))`. -/
theorem C3_witness :
    leavesIn01 (RecGates.OR (.Input 0) (.NOT (.Input 0))) ∧
    fold float_algebra (RecGates.OR (.Input 0) (.NOT (.Input 0))) =
      bool_to_float (fold boolean_algebra
        (toBoolTree (RecGates.OR (.Input 0) (.NOT (.Input 0))))) :=
  ⟨⟨Or.inl rfl, Or.inl rfl⟩,
    C3_relaxation_boolean _ ⟨Or.inl rfl, Or.inl rfl⟩⟩

/-- C4: `fold` applies the algebra directly to a leaf with no recursion,
and on `NOT`/`AND`/`OR` applies the algebra once to the gate whose slots
hold the folds of the subtrees (post-order, one application per node). -/
theorem C4_fold_equations {A : Type} (alg : Gates A → A) (v : A)
    (t l r : RecGates A) :
    fold alg (.Input v) = alg (.Input v) ∧
    fold alg (.NOT t) = alg (.NOT (fold alg t)) ∧
    fold alg (.AND l r) = alg (.AND (fold alg l) (fold alg r)) ∧
    fold alg (.OR l r) = alg (.OR (fold alg l) (fold alg r)) :=
  ⟨rfl, rfl, rfl, rfl⟩

/-- C5: `map_inputs` coincides with pointwise leaf substitution (it
preserves every `NOT`/`AND`/`OR` node's kind and slot order and rewrites
only `Input` payloads), so folding the boolean algebra after `map_inputs`
equals folding after substituting `f` into every leaf. -/
theorem C5_substitution_commutes {A : Type} (f : A → Bool)
    (t : RecGates A) :
    map_inputs f t = substitute_leaves f t ∧
    fold boolean_algebra (map_inputs f t) =
      fold boolean_algebra (substitute_leaves f t) := by
  have h : map_inputs f t = substitute_leaves f t := by
    induction t <;> simp [map_inputs, substitute_leaves, *]
  exact ⟨h, by rw [h]⟩

/-- C6: the payload of the lifted algebra's output is the original algebra
applied to the gate of unwrapped payloads, and hence unwrapping a fold of
the lifted algebra equals folding the original algebra over the tree of
unwrapped payloads. -/
theorem C6_payload_unlifted {A : Type} (alg : Gates A → A)
    (g : Gates (Uniq A)) (t : RecGates (Uniq A)) :
    (uniquify_algebra alg g).unwrapped = alg (g.fmap Uniq.unwrapped) ∧
    (fold (uniquify_algebra alg) t).unwrapped =
      fold alg (map_inputs Uniq.unwrapped t) := by
  refine ⟨rfl, ?_⟩
  induction t with
  | Input u => rfl
  | NOT t ih =>
    simp [fold, map_inputs, uniquify_algebra, Gates.fmap, ih]
  | AND l r ihl ihr =>
    simp [fold, map_inputs, uniquify_algebra, Gates.fmap, ihl, ihr]
  | OR l r ihl ihr =>
    simp [fold, map_inputs, uniquify_algebra, Gates.fmap, ihl, ihr]

/-- C7: two one-level gates of the same node kind whose ordered lists of
slot identities are equal receive equal derived identities from the
lifted algebra, regardless of the payload values in the slots. -/
theorem C7_identity_from_child_ids {A : Type} (alg : Gates A → A)
    (g1 g2 : Gates (Uniq A)) (hkind : kindTag g1 = kindTag g2)
    (hids : slotUuids g1 = slotUuids g2) :
    (uniquify_algebra alg g1).uuid = (uniquify_algebra alg g2).uuid := by
  simp [uniquify_algebra, from_uuids, hids]

/-- Witness for C7: two `AND` gates with swapped boolean payloads but the
same child identities derive the same identity. -/
theorem C7_witness :
    kindTag (Gates.AND (Uniq.mk true (.uuid4 0)) (Uniq.mk false (.uuid4 1)))
      = kindTag (Gates.AND (Uniq.mk false (.uuid4 0))
        (Uniq.mk true (.uuid4 1))) ∧
    slotUuids (Gates.AND (Uniq.mk true (.uuid4 0)) (Uniq.mk false (.uuid4 1)))
      = slotUuids (Gates.AND (Uniq.mk false (.uuid4 0))
        (Uniq.mk true (.uuid4 1))) ∧
    (uniquify_algebra boolean_algebra
        (Gates.AND (Uniq.mk true (.uuid4 0)) (Uniq.mk false (.uuid4 1)))).uuid
      = (uniquify_algebra boolean_algebra
        (Gates.AND (Uniq.mk false (.uuid4 0))
          (Uniq.mk true (.uuid4 1)))).uuid :=
  ⟨rfl, rfl,
    C7_identity_from_child_ids boolean_algebra _ _ rfl rfl⟩

/-- C8: the derived identity ignores the node's own kind tag: `AND` and
`OR` gates with identical ordered child identities `a`, `b` derive the same
combined identity, whatever the payloads. -/
theorem C8_and_or_collision {A : Type} (alg : Gates A → A) (a b : UUID)
    (p1 p2 q1 q2 : A) :
    (uniquify_algebra alg (.AND ⟨p1, a⟩ ⟨p2, b⟩)).uuid =
      (uniquify_algebra alg (.OR ⟨q1, a⟩ ⟨q2, b⟩)).uuid :=
  rfl

/-- C9: the local-gradient oracle on the one-level gate `AND(0.3, 0.7)`
returns the pair `(0.7, 0.3)`, the immediate partial sensitivities in slot
order. -/
theorem C9_derivative_and :
    derivative_algebra (.AND 0.3 0.7) = .pair 0.7 0.3 :=
  rfl

/-- C10: `Uniq(p, i).fmap(f) = Uniq(f(p), from_uuids(i))`: the identity is
deterministically re-derived by hashing the old identity alone — it is not
preserved (it differs from `i`) and does not depend on `f`, so any two
functions mapped over the same `Uniq` value give equal identities. -/
theorem C10_uniq_fmap {A B C : Type} (u : Uniq A) (f : A → B)
    (g : A → C) :
    u.fmap f = ⟨f u.unwrapped, from_uuids [u.uuid]⟩ ∧
    (u.fmap f).uuid ≠ u.uuid ∧
    (u.fmap f).uuid = (u.fmap g).uuid :=
  ⟨rfl, uuid5_single_ne u.uuid, rfl⟩

end BitAcc
